import Mathlib

/-!
Shallow embedding of the OLED animation/widget subsystem from
`modules/dmyoung9/oled_utils/` (files `oled_anim.c`, `oled_declarative.c`,
`oled_unified_anim.c`).

The embedding models the state-machine logic of the low-level animator and
the behavior controllers.  Drawing primitives (`clear_rect`, `draw_slice_px`)
only mutate the display buffer, which no claim here is about, except that
the *reads* a steady-frame draw performs into the frame array are modelled
(to state the null/empty-sequence safety claim); the pixel writes themselves
are elided.  Machine integers are modelled as `Nat`/`Int` with explicit
reduction modulo 2^32 where the C code's `uint32_t` arithmetic can wrap.
A C pointer that may be `NULL` is modelled as an `Option`.
-/

namespace OledAnim

/-- One bitmap frame (`slice_t`): width in pixels and page count.
The pixel data itself is irrelevant to every claim and is elided. -/
structure Frame where
  width : Nat
  pages : Nat
  deriving Repr, DecidableEq

/-- `slice_seq_t`: a frame array together with its `count` field.
In well-formed data built by `DEFINE_SLICE_SEQ`, `count = frames.length`. -/
structure SliceSeq where
  frames : List Frame
  count  : Nat
  deriving Repr, DecidableEq

/-- A possibly-NULL `const slice_seq_t *`. -/
abbrev SeqPtr := Option SliceSeq

/-- 2^32, the modulus of `uint32_t` arithmetic. -/
def MOD32 : Nat := 4294967296

/-- `uint32_t` addition. -/
def add32 (a b : Nat) : Nat := (a + b) % MOD32

/-- `uint32_t` subtraction `a - b` (wraparound). -/
def sub32 (a b : Nat) : Nat := (a + MOD32 - b % MOD32) % MOD32

/-- Whether a `uint32_t` value, reinterpreted as `int32_t`, is negative. -/
def i32neg (d : Nat) : Bool := decide (2 ^ 31 ≤ d)

/-- `ANIM_FRAME_MS`: default frame duration in milliseconds. -/
def ANIM_FRAME_MS : Nat := 80

/-- `anim_result_t`. -/
inductive AnimResult where
  | running      -- ANIM_RUNNING
  | doneAtStart  -- ANIM_DONE_AT_START
  | doneAtEnd    -- ANIM_DONE_AT_END
  deriving Repr, DecidableEq

/-- `animator_t`: the low-level animator.  The `frames` pointer is elided
(it is only dereferenced by the drawing helpers, which are modelled
separately); `count`, `dir`, `idx`, `active`, `next_ms` are kept. -/
structure Animator where
  count   : Nat
  dir     : Int
  idx     : Nat
  active  : Bool
  next_ms : Nat
  deriving Repr, DecidableEq

/-- An animator as constructed inert (`active = false`). -/
def animator0 : Animator := { count := 0, dir := 1, idx := 0, active := false, next_ms := 0 }

/-- `animator_start` (oled_anim.c:37-51). -/
def animator_start (a : Animator) (seq : SeqPtr) (forward : Bool) (now : Nat) : Animator :=
  match seq with
  | none => { a with active := false }
  | some s =>
    if s.count = 0 then { a with active := false }
    else
      { count   := s.count
        dir     := if forward then 1 else -1
        idx     := if forward then 0 else s.count - 1
        active  := true
        next_ms := add32 now ANIM_FRAME_MS }

/-- `animator_reverse` (oled_anim.c:53-60). -/
def animator_reverse (a : Animator) (now : Nat) : Animator :=
  if !a.active || a.count = 0 then a
  else { a with dir := -a.dir, next_ms := add32 now ANIM_FRAME_MS }

/-- `animator_step` (oled_anim.c:72-102).  Returns the updated animator and
the `anim_result_t`. -/
def animator_step (a : Animator) (now : Nat) : Animator × AnimResult :=
  if !a.active || a.count = 0 then (a, .running)
  else if i32neg (sub32 now a.next_ms) then (a, .running)
  else
    let a1 := { a with next_ms := add32 a.next_ms ANIM_FRAME_MS }
    let next_idx : Int := (a1.idx : Int) + a1.dir
    if next_idx < 0 then
      ({ a1 with idx := 0, active := false }, .doneAtStart)
    else if (a1.count : Int) ≤ next_idx then
      ({ a1 with idx := a1.count - 1, active := false }, .doneAtEnd)
    else
      ({ a1 with idx := next_idx.toNat }, .running)

/-- Step the animator at exactly its own deadline (`now = next_ms`),
i.e. with the tick deadline just elapsed. -/
def animStepD (a : Animator) : Animator × AnimResult := animator_step a a.next_ms

/-- Iterate `animStepD` k times, keeping only the animator state. -/
def animIter : Nat → Animator → Animator
  | 0, a => a
  | k + 1, a => animIter k (animStepD a).1

/-!
## Modelling frame-array reads performed by the steady-frame draw helpers

Drawing helpers read `seq->frames[i]`.  To state the null/empty-sequence
safety claim we record what such a read does: dereferencing a NULL sequence
pointer or indexing outside the frame array is undefined behaviour,
a guarded early return is a safe skip, and an in-bounds read yields a frame.
-/

/-- Outcome of a steady-frame draw. -/
inductive DrawOutcome where
  | skipped                 -- the helper's guard returned before any read
  | drew (f : Frame)        -- an in-bounds frame read (then pixel writes)
  | unsafeRead              -- NULL dereference or out-of-bounds index
  deriving Repr, DecidableEq

/-- Read `frames[i]` for a C `int` index `i`: out of bounds is unsafe. -/
def frameRead (l : List Frame) (i : Int) : DrawOutcome :=
  if h : 0 ≤ i ∧ i.toNat < l.length then .drew (l.get ⟨i.toNat, h.2⟩)
  else .unsafeRead

-- ===========================================================================
-- Binary toggle controller (oled_anim.c:274-367)
-- ===========================================================================

/-- `tog_phase_t`. -/
inductive TogPhase where
  | idleOff   -- TOG_IDLE_OFF
  | entering  -- TOG_ENTERING
  | idleOn    -- TOG_IDLE_ON
  | exiting   -- TOG_EXITING
  deriving Repr, DecidableEq

/-- `toggle_anim_t` (drawing position `x`,`y` elided: it only feeds the
pixel-write primitives). -/
structure ToggleAnim where
  seq        : SeqPtr
  anim       : Animator
  phase      : TogPhase
  visible_on : Bool
  desired_on : Bool
  deriving Repr, DecidableEq

/-- The frame-array read performed by `toggle_draw_steady` (oled_anim.c:274-281):
`on ? &seq->frames[seq->count - 1] : &seq->frames[0]`, with **no** null or
emptiness guard.  `seq->count - 1` is computed in C `int` arithmetic, so an
empty sequence yields index `-1`. -/
def toggle_draw_steady_read (w : ToggleAnim) (isOn : Bool) : DrawOutcome :=
  match w.seq with
  | none => .unsafeRead
  | some s => frameRead s.frames (if isOn then (s.count : Int) - 1 else 0)

/-- `toggle_anim_init` (oled_anim.c:283-293): state effect.  The C code also
unconditionally calls `toggle_draw_steady` at the end; that read is
`toggle_draw_steady_read (toggle_anim_init ..) initial_on`. -/
def toggle_anim_init (w : ToggleAnim) (seq : SeqPtr) (initial_on : Bool) : ToggleAnim :=
  { w with
    seq        := seq
    phase      := if initial_on then .idleOn else .idleOff
    visible_on := initial_on
    desired_on := initial_on
    anim       := { w.anim with active := false } }

/-- `toggle_anim_set` (oled_anim.c:295-327). -/
def toggle_anim_set (w : ToggleAnim) (want_on : Bool) (now : Nat) : ToggleAnim :=
  let w := { w with desired_on := want_on }
  match w.phase with
  | .idleOff =>
    if want_on then
      { w with anim := animator_start w.anim w.seq true now, phase := .entering }
    else w
  | .idleOn =>
    if !want_on then
      { w with anim := animator_start w.anim w.seq false now, phase := .exiting }
    else w
  | .entering =>
    if !want_on then
      { w with anim := animator_reverse w.anim now, phase := .exiting }
    else w
  | .exiting =>
    if want_on then
      { w with anim := animator_reverse w.anim now, phase := .entering }
    else w

/-- `toggle_anim_render_blend` (oled_anim.c:333-367): state effect.
`use_or_blend` only changes the pixel blending, not the state updates. -/
def toggle_anim_render_blend (w : ToggleAnim) (now : Nat) (use_or_blend : Bool) : ToggleAnim :=
  match w.phase with
  | .idleOff => w
  | .idleOn => w
  | .entering =>
    let sr := animator_step w.anim now
    let w1 := { w with anim := sr.1 }
    if sr.2 = .doneAtEnd then { w1 with phase := .idleOn, visible_on := true } else w1
  | .exiting =>
    let sr := animator_step w.anim now
    let w1 := { w with anim := sr.1 }
    if sr.2 = .doneAtStart then { w1 with phase := .idleOff, visible_on := false } else w1

/-- Render the toggle at exactly its animator's deadline (opaque blend). -/
def togRenderD (w : ToggleAnim) : ToggleAnim := toggle_anim_render_blend w w.anim.next_ms false

/-- Iterate `togRenderD` k times. -/
def togIter : Nat → ToggleAnim → ToggleAnim
  | 0, w => w
  | k + 1, w => togIter k (togRenderD w)

-- ===========================================================================
-- Exclusive state transition controller (oled_anim.c:123-272)
-- ===========================================================================

/-- `tr_phase_t`. -/
inductive TrPhase where
  | idle   -- TR_IDLE
  | exit   -- TR_EXIT
  | enter  -- TR_ENTER
  deriving Repr, DecidableEq

/-- `layer_transition_t`.  The `seq_map` array of sequence pointers is
modelled as a function from state index to a possibly-NULL sequence;
`x`,`y` are elided (drawing only). -/
structure LayerTransition where
  seq_map     : Nat → SeqPtr
  state_count : Nat
  anim        : Animator
  phase       : TrPhase
  src         : Nat
  dst         : Nat
  pending     : Nat
  initialized : Bool

/-- `start_exit` (oled_anim.c:125-129): run `src`'s sequence backward. -/
def lt_start_exit (t : LayerTransition) (now : Nat) : LayerTransition :=
  { t with anim := animator_start t.anim (t.seq_map t.src) false now, phase := .exit }

/-- `start_enter` (oled_anim.c:131-135): run `src`'s sequence forward. -/
def lt_start_enter (t : LayerTransition) (now : Nat) : LayerTransition :=
  { t with anim := animator_start t.anim (t.seq_map t.src) true now, phase := .enter }

/-- `layer_tr_request` (oled_anim.c:159-204). -/
def layer_tr_request (t : LayerTransition) (desired : Nat) (now : Nat) : LayerTransition :=
  if !t.initialized || t.state_count ≤ desired then t
  else if t.phase = .idle ∧ desired = t.src then t
  else
    match t.phase with
    | .idle =>
      if desired ≠ t.src then lt_start_exit { t with dst := desired } now
      else t
    | .exit =>
      if desired = t.src then
        { t with anim := animator_reverse t.anim now, dst := t.src }
      else if desired ≠ t.dst then
        { t with dst := desired }
      else t
    | .enter =>
      if desired = t.src then t
      else { t with anim := animator_reverse t.anim now, pending := desired }

/-- `layer_tr_render` (oled_anim.c:215-272): state effect (steady draws of
the idle branches touch only the display). -/
def layer_tr_render (t : LayerTransition) (now : Nat) : LayerTransition :=
  match t.phase with
  | .idle => t
  | .exit =>
    let sr := animator_step t.anim now
    let t1 := { t with anim := sr.1 }
    match sr.2 with
    | .running => t1
    | .doneAtStart => lt_start_enter { t1 with src := t1.dst } now
    | .doneAtEnd =>
      let t2 := { t1 with phase := .idle }
      if t2.pending ≠ 255 ∧ t2.pending ≠ t2.src then
        lt_start_exit { t2 with dst := t2.pending, pending := 255 } now
      else t2
  | .enter =>
    let sr := animator_step t.anim now
    let t1 := { t with anim := sr.1 }
    match sr.2 with
    | .running => t1
    | .doneAtEnd => { t1 with phase := .idle }
    | .doneAtStart =>
      let t2 := { t1 with phase := .idle }
      if t2.pending ≠ 255 ∧ t2.pending ≠ t2.src then
        lt_start_exit { t2 with dst := t2.pending, pending := 255 } now
      else t2

/-- Render the transition controller at exactly its animator's deadline. -/
def ltRenderD (t : LayerTransition) : LayerTransition := layer_tr_render t t.anim.next_ms

/-- Iterate `ltRenderD` k times. -/
def ltIter : Nat → LayerTransition → LayerTransition
  | 0, t => t
  | k + 1, t => ltIter k (ltRenderD t)

-- ===========================================================================
-- One-shot controller (oled_anim.c:378-470)
-- ===========================================================================

/-- `oneshot_phase_t`. -/
inductive OneshotPhase where
  | idle       -- ONESHOT_IDLE
  | boot       -- ONESHOT_BOOT
  | triggered  -- ONESHOT_TRIGGERED
  deriving Repr, DecidableEq

/-- `oneshot_anim_t` (`x`,`y` elided). -/
structure OneshotAnim where
  seq           : SeqPtr
  steady_at_end : Bool
  anim          : Animator
  phase         : OneshotPhase
  boot_done     : Bool
  deriving Repr, DecidableEq

/-- The frame-array read performed by `oneshot_draw_steady_blend`
(oled_anim.c:378-389).  Unlike the toggle helper, it guards against a
null or empty sequence and returns before reading. -/
def oneshot_draw_steady_read (w : OneshotAnim) : DrawOutcome :=
  match w.seq with
  | none => .skipped
  | some s =>
    if s.count = 0 then .skipped
    else frameRead s.frames (if w.steady_at_end then (s.count : Int) - 1 else 0)

/-- `oneshot_anim_init` (oled_anim.c:399-419). -/
def oneshot_anim_init (w : OneshotAnim) (seq : SeqPtr) (steady_at_end run_boot_anim : Bool)
    (now : Nat) : OneshotAnim :=
  let w1 : OneshotAnim :=
    { w with
      seq           := seq
      steady_at_end := steady_at_end
      boot_done     := false
      anim          := { w.anim with active := false } }
  match seq with
  | some s =>
    if run_boot_anim ∧ s.count ≠ 0 then
      { w1 with anim := animator_start w1.anim seq true now, phase := .boot }
    else { w1 with phase := .idle, boot_done := true }
  | none => { w1 with phase := .idle, boot_done := true }

/-- `oneshot_anim_trigger` (oled_anim.c:421-428). -/
def oneshot_anim_trigger (w : OneshotAnim) (now : Nat) : OneshotAnim :=
  match w.seq with
  | none => w
  | some s =>
    if !w.boot_done || s.count = 0 then w
    else { w with anim := animator_start w.anim w.seq true now, phase := .triggered }

/-- `oneshot_anim_render_blend` (oled_anim.c:434-470): state effect plus the
edge-triggered completion flag it returns. -/
def oneshot_anim_render_blend (w : OneshotAnim) (now : Nat) : OneshotAnim × Bool :=
  match w.phase with
  | .idle => (w, false)
  | .boot =>
    let sr := animator_step w.anim now
    let w1 := { w with anim := sr.1 }
    if sr.2 = .doneAtEnd then ({ w1 with phase := .idle, boot_done := true }, true)
    else (w1, false)
  | .triggered =>
    let sr := animator_step w.anim now
    let w1 := { w with anim := sr.1 }
    if sr.2 = .doneAtEnd then ({ w1 with phase := .idle }, true)
    else (w1, false)

-- ===========================================================================
-- Declarative widget system (oled_declarative.c / oled_declarative.h)
-- ===========================================================================

/-- `WIDGET_WATCHDOG_TIMEOUT_MS` (oled_declarative.h:32-34, default). -/
def WIDGET_WATCHDOG_TIMEOUT_MS : Nat := 1000

/-- `WIDGET_WATCHDOG_GRACE_MS` (oled_declarative.h:42-44, default). -/
def WIDGET_WATCHDOG_GRACE_MS : Nat := 500

/-- `state_desc_t`: per-state sequence and enter direction
(`ENTER_FWD = +1`, `ENTER_REV = -1`). -/
structure StateDesc where
  seq       : SeqPtr
  enter_dir : Int

/-- `widget_config_t`, restricted to the fields `widget_init`/`widget_tick`
read: layout and blending only feed the pixel primitives and are elided.
`query` models `cfg->query(user_arg, current_state, now)` with the constant
`user_arg` absorbed; `legacy_query` models `cfg->legacy_query(user_arg)`,
whose value is a constant from the widget's point of view. -/
structure WidgetConfig where
  states       : Nat → StateDesc
  state_count  : Nat
  query        : Option (Nat → Nat → Nat)
  legacy_query : Option Nat

/-- `widget_runtime` (`widget_t`), restricted to the fields
`widget_init`/`widget_tick` touch. -/
structure Widget where
  cfg               : WidgetConfig
  anim              : Animator
  phase             : TrPhase
  src               : Nat
  dst               : Nat
  pending           : Nat
  last_query_result : Nat
  last_state_change : Nat
  stuck_timeout     : Nat
  initialized       : Bool

/-- `start_exit` for widgets (oled_declarative.c:88-95); the mapped exit
direction is the opposite of the state's enter direction (`map_exit_of`). -/
def wd_start_exit (w : Widget) (now : Nat) : Widget :=
  let sd := w.cfg.states w.src
  { w with anim := animator_start w.anim sd.seq (decide (sd.enter_dir ≤ 0)) now, phase := .exit }

/-- `start_enter` for widgets (oled_declarative.c:102-109) (`map_enter_of`). -/
def wd_start_enter (w : Widget) (now : Nat) : Widget :=
  let sd := w.cfg.states w.src
  { w with anim := animator_start w.anim sd.seq (decide (0 < sd.enter_dir)) now, phase := .enter }

/-- `widget_init` (oled_declarative.c:154-170).  The C code leaves
`last_query_time` and the error-tracking fields to their prior values and
they are never read by `widget_tick`, so they are elided. -/
def widget_init (w : Widget) (cfg : WidgetConfig) (initial_state : Nat) (now : Nat) : Widget :=
  { w with
    cfg               := cfg
    anim              := { w.anim with active := false, count := 0 }
    phase             := .idle
    src               := initial_state
    dst               := initial_state
    pending           := 255
    last_query_result := initial_state
    last_state_change := now
    stuck_timeout     := 0
    initialized       := true }

/-- `widget_tick` (oled_declarative.c:172-286).  `step_then_draw` reduces to
`animator_step` on the state (its drawing half touches only the display). -/
def widget_tick (w : Widget) (now : Nat) : Widget :=
  if !w.initialized then w
  else
    -- 1) query the desired state
    let desired0 : Nat :=
      match w.cfg.query with
      | some q => q w.src now
      | none =>
        match w.cfg.legacy_query with
        | some v => v
        | none => w.src
    let desired := if w.cfg.state_count ≤ desired0 then w.src else desired0
    -- 2) watchdog
    let w :=
      if desired ≠ w.last_query_result then
        { w with last_query_result := desired, last_state_change := now, stuck_timeout := 0 }
      else w
    let w :=
      if w.phase ≠ .idle ∧ w.stuck_timeout = 0 ∧
          WIDGET_WATCHDOG_TIMEOUT_MS < sub32 now w.last_state_change then
        { w with stuck_timeout := now }
      else w
    if w.stuck_timeout ≠ 0 ∧ WIDGET_WATCHDOG_GRACE_MS < sub32 now w.stuck_timeout then
      { w with
        phase := .idle, src := desired, dst := desired, pending := 255,
        anim := { w.anim with active := false }, stuck_timeout := 0 }
    else
      -- 3) transition logic
      match w.phase with
      | .idle =>
        if desired ≠ w.src then wd_start_exit { w with dst := desired } now
        else w
      | .exit =>
        let w :=
          if desired = w.src ∧ w.dst ≠ w.src then
            { w with anim := animator_reverse w.anim now, dst := w.src }
          else if desired ≠ w.dst then { w with dst := desired }
          else w
        let sr := animator_step w.anim now
        let w1 := { w with anim := sr.1 }
        match sr.2 with
        | .running => w1
        | .doneAtStart => wd_start_enter { w1 with src := w1.dst } now
        | .doneAtEnd => { w1 with phase := .idle }
      | .enter =>
        let w :=
          if desired ≠ w.src then
            { w with anim := animator_reverse w.anim now, pending := desired }
          else w
        let sr := animator_step w.anim now
        let w1 := { w with anim := sr.1 }
        match sr.2 with
        | .running => w1
        | .doneAtEnd => { w1 with phase := .idle }
        | .doneAtStart =>
          let w2 := { w1 with phase := .idle }
          if w2.pending ≠ 255 ∧ w2.pending ≠ w2.src then
            wd_start_exit { w2 with dst := w2.pending, pending := 255 } now
          else w2

-- ===========================================================================
-- Unified animation controller (oled_unified_anim.c / oled_unified_anim.h)
-- ===========================================================================

/-- `anim_behavior_t`. -/
inductive AnimBehavior where
  | oneshot          -- ANIM_ONESHOT
  | outback          -- ANIM_OUTBACK
  | toggle           -- ANIM_TOGGLE
  | bootrev          -- ANIM_BOOTREV
  | layerTransition  -- ANIM_LAYER_TRANSITION
  deriving Repr, DecidableEq

/-- `anim_phase_t`. -/
inductive AnimPhase where
  | idle        -- PHASE_IDLE
  | boot        -- PHASE_BOOT
  | forward     -- PHASE_FORWARD
  | reverse     -- PHASE_REVERSE
  | transition  -- PHASE_TRANSITION
  deriving Repr, DecidableEq

/-- `unified_anim_config_t` (`x`,`y` and `blend` elided: they only feed the
pixel primitives; `steady` is kept as `steady_last : Bool` for
`STEADY_LAST` vs `STEADY_FIRST`). -/
structure UnifiedConfig where
  seq           : SeqPtr
  behavior      : AnimBehavior
  steady_last   : Bool
  run_boot_anim : Bool
  seq_map       : Option (Nat → SeqPtr)
  state_count   : Nat

/-- `unified_anim_t`. -/
structure UnifiedAnim where
  cfg           : UnifiedConfig
  anim          : Animator
  phase         : AnimPhase
  current_state : Nat
  target_state  : Nat
  pending_state : Nat
  boot_done     : Bool
  visible_on    : Bool
  desired_on    : Bool
  last_trigger  : Nat

/-- `get_current_sequence` (oled_unified_anim.c:16-26). -/
def get_current_sequence (w : UnifiedAnim) : SeqPtr :=
  match w.cfg.seq_map with
  | none => w.cfg.seq
  | some m =>
    if w.cfg.behavior ≠ .layerTransition then w.cfg.seq
    else if w.current_state < w.cfg.state_count then m w.current_state
    else none

/-- `handle_oneshot_behavior` (oled_unified_anim.c:83-104).  Note that the
C code assigns `w->phase = PHASE_IDLE` *before* testing
`if (w->phase == PHASE_BOOT)`, so the `boot_done = true` branch is dead;
the translation reproduces that order faithfully. -/
def handle_oneshot_behavior (w : UnifiedAnim) (now : Nat) : UnifiedAnim × Bool :=
  match w.phase with
  | .idle => (w, false)
  | .boot | .forward =>
    let sr := animator_step w.anim now
    let w1 := { w with anim := sr.1 }
    if sr.2 = .doneAtEnd then
      let w2 := { w1 with phase := .idle }
      let w3 := if w2.phase = .boot then { w2 with boot_done := true } else w2
      (w3, true)
    else (w1, false)
  | _ => (w, false)

/-- `handle_outback_behavior` (oled_unified_anim.c:109-149). -/
def handle_outback_behavior (w : UnifiedAnim) (now : Nat) : UnifiedAnim × Bool :=
  match w.phase with
  | .idle => (w, false)
  | .boot =>
    let sr := animator_step w.anim now
    let w1 := { w with anim := sr.1 }
    if sr.2 = .doneAtEnd then ({ w1 with phase := .idle, boot_done := true }, true)
    else (w1, false)
  | .forward =>
    let sr := animator_step w.anim now
    let w1 := { w with anim := sr.1 }
    if sr.2 = .doneAtEnd then
      ({ w1 with anim := animator_start w1.anim (get_current_sequence w1) false now,
                 phase := .reverse }, false)
    else (w1, false)
  | .reverse =>
    let sr := animator_step w.anim now
    let w1 := { w with anim := sr.1 }
    if sr.2 = .doneAtStart then ({ w1 with phase := .idle }, true)
    else (w1, false)
  | _ => (w, false)

/-- `handle_toggle_behavior` (oled_unified_anim.c:154-187). -/
def handle_toggle_behavior (w : UnifiedAnim) (now : Nat) : UnifiedAnim × Bool :=
  match w.phase with
  | .idle => (w, false)
  | .forward =>
    let sr := animator_step w.anim now
    let w1 := { w with anim := sr.1 }
    if sr.2 = .doneAtEnd then ({ w1 with phase := .idle, visible_on := true }, true)
    else (w1, false)
  | .reverse =>
    let sr := animator_step w.anim now
    let w1 := { w with anim := sr.1 }
    if sr.2 = .doneAtStart then ({ w1 with phase := .idle, visible_on := false }, true)
    else (w1, false)
  | _ => (w, false)

/-- `handle_bootrev_behavior` (oled_unified_anim.c:192-234). -/
def handle_bootrev_behavior (w : UnifiedAnim) (now : Nat) : UnifiedAnim × Bool :=
  match w.phase with
  | .idle => (w, false)
  | .boot =>
    let sr := animator_step w.anim now
    let w1 := { w with anim := sr.1 }
    if sr.2 = .doneAtEnd then ({ w1 with phase := .idle, boot_done := true }, true)
    else (w1, false)
  | .reverse =>
    let sr := animator_step w.anim now
    let w1 := { w with anim := sr.1 }
    if sr.2 = .doneAtStart then
      ({ w1 with anim := animator_start w1.anim (get_current_sequence w1) true now,
                 phase := .forward }, false)
    else (w1, false)
  | .forward =>
    let sr := animator_step w.anim now
    let w1 := { w with anim := sr.1 }
    if sr.2 = .doneAtEnd then ({ w1 with phase := .idle }, true)
    else (w1, false)
  | _ => (w, false)

/-- `unified_anim_init` (oled_unified_anim.c:240-266). -/
def unified_anim_init (w : UnifiedAnim) (cfg : UnifiedConfig) (initial_state : Nat)
    (now : Nat) : UnifiedAnim :=
  let w1 : UnifiedAnim :=
    { w with
      cfg           := cfg
      anim          := { w.anim with active := false }
      phase         := .idle
      current_state := initial_state
      target_state  := initial_state
      pending_state := 255
      boot_done     := false
      visible_on    := initial_state ≠ 0
      desired_on    := initial_state ≠ 0
      last_trigger  := now }
  if cfg.run_boot_anim then
    match get_current_sequence w1 with
    | some s =>
      if s.count ≠ 0 then
        { w1 with anim := animator_start w1.anim (some s) true now, phase := .boot }
      else { w1 with boot_done := true }
    | none => { w1 with boot_done := true }
  else { w1 with boot_done := true }

/-- `unified_anim_trigger` (oled_unified_anim.c:268-309). -/
def unified_anim_trigger (w : UnifiedAnim) (state_or_toggle : Nat) (now : Nat) : UnifiedAnim :=
  match get_current_sequence w with
  | none => w
  | some s =>
    if s.count = 0 then w
    else
      let w := { w with last_trigger := now }
      match w.cfg.behavior with
      | .oneshot =>
        if w.boot_done ∧ w.phase = .idle then
          { w with anim := animator_start w.anim (some s) true now, phase := .forward }
        else w
      | .outback =>
        if w.boot_done ∧ w.phase = .idle then
          { w with anim := animator_start w.anim (some s) true now, phase := .forward }
        else w
      | .toggle =>
        let w := { w with desired_on := state_or_toggle ≠ 0 }
        if w.desired_on ≠ w.visible_on ∧ w.phase = .idle then
          let forward := w.desired_on
          { w with anim := animator_start w.anim (some s) forward now,
                   phase := if forward then .forward else .reverse }
        else w
      | .bootrev =>
        if w.boot_done ∧ w.phase = .idle then
          { w with anim := animator_start w.anim (some s) false now, phase := .reverse }
        else w
      | .layerTransition => w

/-- `unified_anim_render` (oled_unified_anim.c:311-327). -/
def unified_anim_render (w : UnifiedAnim) (now : Nat) : UnifiedAnim × Bool :=
  match w.cfg.behavior with
  | .oneshot => handle_oneshot_behavior w now
  | .outback => handle_outback_behavior w now
  | .toggle => handle_toggle_behavior w now
  | .bootrev => handle_bootrev_behavior w now
  | .layerTransition => (w, false)

/-- The states of one unified controller reachable from `unified_anim_init`
under any interleaving of renders and triggers. -/
inductive UnifiedReach (cfg : UnifiedConfig) : UnifiedAnim → Prop where
  | init (w0 : UnifiedAnim) (s now : Nat) :
      UnifiedReach cfg (unified_anim_init w0 cfg s now)
  | render {w : UnifiedAnim} (now : Nat) :
      UnifiedReach cfg w → UnifiedReach cfg (unified_anim_render w now).1
  | trigger {w : UnifiedAnim} (x now : Nat) :
      UnifiedReach cfg w → UnifiedReach cfg (unified_anim_trigger w x now)

-- ===========================================================================
-- Basic arithmetic and single-step lemmas
-- ===========================================================================

theorem MOD32_pos : 0 < MOD32 := by decide

theorem add32_lt (a b : Nat) : add32 a b < MOD32 :=
  Nat.mod_lt _ MOD32_pos

theorem sub32_self {x : Nat} (hx : x < MOD32) : sub32 x x = 0 := by
  unfold sub32
  rw [Nat.mod_eq_of_lt hx]
  have h : x + MOD32 - x = MOD32 := by omega
  rw [h, Nat.mod_self]

/-- At its own deadline, an active forward animator strictly below the last
admissible position advances one frame and stays running. -/
theorem animStepD_run_fwd (a : Animator) (ha : a.active = true) (hc : a.count ≠ 0)
    (hd : a.dir = 1) (hn : a.next_ms < MOD32) (hi : a.idx + 1 < a.count) :
    animStepD a =
      ({ a with idx := a.idx + 1, next_ms := add32 a.next_ms ANIM_FRAME_MS }, .running) := by
  unfold animStepD animator_step
  rw [ha, sub32_self hn, hd]
  have h0 : ¬ ((a.idx : Int) + 1 < 0) := by omega
  have h1 : ¬ ((a.count : Int) ≤ (a.idx : Int) + 1) := by omega
  simp only [Bool.not_true, Bool.false_or, decide_eq_true_eq, i32neg]
  rw [if_neg hc, if_neg (by decide : ¬ (2 ^ 31 ≤ 0)), if_neg h0, if_neg h1]
  have h2 : ((a.idx : Int) + 1).toNat = a.idx + 1 := by omega
  rw [h2]

/-- At its own deadline, an active forward animator at the last admissible
position clamps to `count - 1`, deactivates, and reports done-at-end. -/
theorem animStepD_done_end (a : Animator) (ha : a.active = true) (hc : a.count ≠ 0)
    (hd : a.dir = 1) (hn : a.next_ms < MOD32) (hi : a.count ≤ a.idx + 1) :
    animStepD a =
      ({ a with idx := a.count - 1, active := false,
                next_ms := add32 a.next_ms ANIM_FRAME_MS }, .doneAtEnd) := by
  unfold animStepD animator_step
  rw [ha, sub32_self hn, hd]
  have h0 : ¬ ((a.idx : Int) + 1 < 0) := by omega
  have h1 : (a.count : Int) ≤ (a.idx : Int) + 1 := by omega
  simp only [Bool.not_true, Bool.false_or, decide_eq_true_eq, i32neg]
  rw [if_neg hc, if_neg (by decide : ¬ (2 ^ 31 ≤ 0)), if_neg h0, if_pos h1]

/-- At its own deadline, an active backward animator strictly above index 0
retreats one frame and stays running. -/
theorem animStepD_run_bwd (a : Animator) (ha : a.active = true) (hc : a.count ≠ 0)
    (hd : a.dir = -1) (hn : a.next_ms < MOD32) (hi : 1 ≤ a.idx) (hi2 : a.idx < a.count) :
    animStepD a =
      ({ a with idx := a.idx - 1, next_ms := add32 a.next_ms ANIM_FRAME_MS }, .running) := by
  unfold animStepD animator_step
  rw [ha, sub32_self hn, hd]
  have h0 : ¬ ((a.idx : Int) + (-1) < 0) := by omega
  have h1 : ¬ ((a.count : Int) ≤ (a.idx : Int) + (-1)) := by omega
  simp only [Bool.not_true, Bool.false_or, decide_eq_true_eq, i32neg]
  rw [if_neg hc, if_neg (by decide : ¬ (2 ^ 31 ≤ 0)), if_neg h0, if_neg h1]
  have h2 : ((a.idx : Int) + (-1)).toNat = a.idx - 1 := by omega
  rw [h2]

/-- At its own deadline, an active backward animator at index 0 stays at 0,
deactivates, and reports done-at-start. -/
theorem animStepD_done_start (a : Animator) (ha : a.active = true) (hc : a.count ≠ 0)
    (hd : a.dir = -1) (hn : a.next_ms < MOD32) (hi : a.idx = 0) :
    animStepD a =
      ({ a with idx := 0, active := false,
                next_ms := add32 a.next_ms ANIM_FRAME_MS }, .doneAtStart) := by
  unfold animStepD animator_step
  rw [ha, sub32_self hn, hd, hi]
  have h0 : ((0 : Nat) : Int) + (-1) < 0 := by omega
  simp only [Bool.not_true, Bool.false_or, decide_eq_true_eq, i32neg]
  rw [if_neg hc, if_neg (by decide : ¬ (2 ^ 31 ≤ 0)), if_pos h0]

/-- Iterating deadline steps on an active forward animator with room for
`k` more running steps. -/
theorem animIter_fwd (k : Nat) : ∀ (a : Animator), a.active = true → a.count ≠ 0 →
    a.dir = 1 → a.next_ms < MOD32 → a.idx + k < a.count →
    ∃ ms, ms < MOD32 ∧ animIter k a = { a with idx := a.idx + k, next_ms := ms } := by
  induction k with
  | zero =>
    intro a ha hc hd hn hi
    exact ⟨a.next_ms, hn, rfl⟩
  | succ k ih =>
    intro a ha hc hd hn hi
    have hstep := animStepD_run_fwd a ha hc hd hn (by omega)
    have h := ih { a with idx := a.idx + 1, next_ms := add32 a.next_ms ANIM_FRAME_MS }
      ha hc hd (add32_lt _ _) (by simpa using by omega)
    obtain ⟨ms, hms, hiter⟩ := h
    refine ⟨ms, hms, ?_⟩
    show animIter k (animStepD a).1 = _
    rw [hstep]
    simpa [Nat.add_assoc, Nat.add_comm 1 k] using hiter

/-- Iterating deadline steps on an active backward animator with room for
`k` more running steps. -/
theorem animIter_bwd (k : Nat) : ∀ (a : Animator), a.active = true → a.count ≠ 0 →
    a.dir = -1 → a.next_ms < MOD32 → k ≤ a.idx → a.idx < a.count →
    ∃ ms, ms < MOD32 ∧ animIter k a = { a with idx := a.idx - k, next_ms := ms } := by
  induction k with
  | zero =>
    intro a ha hc hd hn hk hi
    exact ⟨a.next_ms, hn, rfl⟩
  | succ k ih =>
    intro a ha hc hd hn hk hi
    have hstep := animStepD_run_bwd a ha hc hd hn (by omega) hi
    have h := ih { a with idx := a.idx - 1, next_ms := add32 a.next_ms ANIM_FRAME_MS }
      ha hc hd (add32_lt _ _) (by simpa using by omega) (by simpa using by omega)
    obtain ⟨ms, hms, hiter⟩ := h
    refine ⟨ms, hms, ?_⟩
    show animIter k (animStepD a).1 = _
    rw [hstep]
    have : a.idx - 1 - k = a.idx - (k + 1) := by omega
    simpa [this] using hiter

/-- Evaluating `animator_start` on a valid forward start. -/
theorem animator_start_fwd (a : Animator) (s : SliceSeq) (now : Nat) (hc : s.count ≠ 0) :
    animator_start a (some s) true now =
      { count := s.count, dir := 1, idx := 0, active := true,
        next_ms := add32 now ANIM_FRAME_MS } := by
  simp [animator_start, hc]

/-- Evaluating `animator_start` on a valid backward start. -/
theorem animator_start_bwd (a : Animator) (s : SliceSeq) (now : Nat) (hc : s.count ≠ 0) :
    animator_start a (some s) false now =
      { count := s.count, dir := -1, idx := s.count - 1, active := true,
        next_ms := add32 now ANIM_FRAME_MS } := by
  simp [animator_start, hc]

-- ===========================================================================
-- Concrete fixtures for witnesses and counterexamples
-- ===========================================================================

/-- A 16x16 frame, as built by `SLICE16x16`. -/
def f16 : Frame := { width := 16, pages := 2 }

/-- A concrete 4-frame sequence `[f0,f1,f2,f3]`. -/
def seq4 : SliceSeq := { frames := [f16, f16, f16, f16], count := 4 }

/-- A concrete 3-frame sequence. -/
def seq3 : SliceSeq := { frames := [f16, f16, f16], count := 3 }

-- ===========================================================================
-- C1: animator boundary correctness
-- ===========================================================================

/-- C1 counterexample: the claim's concrete scenario fails on the code.
For the 4-frame sequence started forward at t=0, the third deadline-elapsed
step (at t=240) yields index 3 with `ANIM_RUNNING`, not `ANIM_DONE_AT_END`:
the animator only reports done-at-end on the fourth step. -/
theorem animator_third_step_still_running :
    (animator_step (animator_step (animator_step
        (animator_start animator0 (some seq4) true 0) 80).1 160).1 240).2 = .running ∧
    (animator_step (animator_step (animator_step
        (animator_start animator0 (some seq4) true 0) 80).1 160).1 240).1.idx = 3 ∧
    (animator_step (animator_step (animator_step (animator_step
        (animator_start animator0 (some seq4) true 0) 80).1 160).1 240).1 320).2
      = .doneAtEnd := by
  decide

/-- C1 (amended): for a sequence of length N ≥ 1 bound by `animator_start`,
starting forward and stepping N-1 times (each at its deadline) reaches index
N-1 still running; the N-th step then reports `ANIM_DONE_AT_END` at index
N-1 with the animator inactive.  Symmetrically, starting backward, N-1 steps
reach index 0 still running and the N-th step reports `ANIM_DONE_AT_START`
at index 0. -/
theorem animator_boundary_correctness (s : SliceSeq) (n t : Nat)
    (hn : 1 ≤ n) (hc : s.count = n) :
    ((animIter (n - 1) (animator_start animator0 (some s) true t)).idx = n - 1 ∧
     (animIter (n - 1) (animator_start animator0 (some s) true t)).active = true ∧
     (animStepD (animIter (n - 1) (animator_start animator0 (some s) true t))).2
        = .doneAtEnd ∧
     (animStepD (animIter (n - 1) (animator_start animator0 (some s) true t))).1.idx
        = n - 1 ∧
     (animStepD (animIter (n - 1) (animator_start animator0 (some s) true t))).1.active
        = false) ∧
    ((animIter (n - 1) (animator_start animator0 (some s) false t)).idx = 0 ∧
     (animIter (n - 1) (animator_start animator0 (some s) false t)).active = true ∧
     (animStepD (animIter (n - 1) (animator_start animator0 (some s) false t))).2
        = .doneAtStart ∧
     (animStepD (animIter (n - 1) (animator_start animator0 (some s) false t))).1.idx
        = 0 ∧
     (animStepD (animIter (n - 1) (animator_start animator0 (some s) false t))).1.active
        = false) := by
  have hc0 : s.count ≠ 0 := by omega
  constructor
  · rw [animator_start_fwd animator0 s t hc0]
    obtain ⟨ms, hms, hiter⟩ := animIter_fwd (n - 1)
      { count := s.count, dir := 1, idx := 0, active := true,
        next_ms := add32 t ANIM_FRAME_MS }
      rfl hc0 rfl (add32_lt _ _) (by simp; omega)
    rw [hiter]
    have hdone := animStepD_done_end
      { count := s.count, dir := 1, idx := 0 + (n - 1), active := true, next_ms := ms }
      rfl hc0 rfl hms (by simp; omega)
    rw [hdone]
    refine ⟨by simp, rfl, rfl, by simp [hc], rfl⟩
  · rw [animator_start_bwd animator0 s t hc0]
    obtain ⟨ms, hms, hiter⟩ := animIter_bwd (n - 1)
      { count := s.count, dir := -1, idx := s.count - 1, active := true,
        next_ms := add32 t ANIM_FRAME_MS }
      rfl hc0 rfl (add32_lt _ _) (by simp; omega) (by simp; omega)
    rw [hiter]
    have hdone := animStepD_done_start
      { count := s.count, dir := -1, idx := s.count - 1 - (n - 1), active := true,
        next_ms := ms }
      rfl hc0 rfl hms (by simp; omega)
    rw [hdone]
    exact ⟨by simp [hc], rfl, rfl, rfl, rfl⟩

/-- C1 witness: the amended statement instantiated on the concrete 4-frame
sequence started at t=0. -/
theorem animator_boundary_correctness_witness :
    (animIter 3 (animator_start animator0 (some seq4) true 0)).idx = 3 ∧
    (animStepD (animIter 3 (animator_start animator0 (some seq4) true 0))).2
      = .doneAtEnd ∧
    (animIter 3 (animator_start animator0 (some seq4) false 0)).idx = 0 ∧
    (animStepD (animIter 3 (animator_start animator0 (some seq4) false 0))).2
      = .doneAtStart := by
  have h := animator_boundary_correctness seq4 4 0 (by norm_num) rfl
  exact ⟨h.1.1, h.1.2.2.1, h.2.1, h.2.2.2.1⟩

-- ===========================================================================
-- C3: mid-flight reversal is frame-preserving
-- ===========================================================================

/-- Evaluating `animator_reverse` on an active animator. -/
theorem animator_reverse_active (a : Animator) (now : Nat)
    (ha : a.active = true) (hc : a.count ≠ 0) :
    animator_reverse a now =
      { a with dir := -a.dir, next_ms := add32 now ANIM_FRAME_MS } := by
  unfold animator_reverse
  rw [ha]
  simp [hc]

/-- C3: for every active animator (with its index in range, as in every
reachable state), `animator_reverse` leaves the current frame index
unchanged and only flips the direction sign; the next deadline-elapsed step
after a reversal from index k moves to k-1 if the animator had been running
forward (done-at-start when k = 0), and to k+1 if it had been running
backward (done-at-end clamping to count-1 when k+1 = count). -/
theorem animator_reverse_frame_preserving (a : Animator) (now : Nat)
    (ha : a.active = true) (hc : a.count ≠ 0) (hi : a.idx < a.count) :
    (animator_reverse a now).idx = a.idx ∧
    (animator_reverse a now).dir = -a.dir ∧
    (animator_reverse a now).active = true ∧
    (a.dir = 1 → 0 < a.idx →
      (animStepD (animator_reverse a now)).1.idx = a.idx - 1 ∧
      (animStepD (animator_reverse a now)).2 = .running) ∧
    (a.dir = 1 → a.idx = 0 →
      (animStepD (animator_reverse a now)).1.idx = 0 ∧
      (animStepD (animator_reverse a now)).2 = .doneAtStart) ∧
    (a.dir = -1 → a.idx + 1 < a.count →
      (animStepD (animator_reverse a now)).1.idx = a.idx + 1 ∧
      (animStepD (animator_reverse a now)).2 = .running) ∧
    (a.dir = -1 → a.idx + 1 = a.count →
      (animStepD (animator_reverse a now)).1.idx = a.count - 1 ∧
      (animStepD (animator_reverse a now)).2 = .doneAtEnd) := by
  rw [animator_reverse_active a now ha hc]
  refine ⟨rfl, rfl, ha, ?_, ?_, ?_, ?_⟩
  · intro hd hk
    have hstep := animStepD_run_bwd
      { a with dir := -a.dir, next_ms := add32 now ANIM_FRAME_MS }
      ha hc (by simp [hd]) (add32_lt _ _) hk hi
    rw [hstep]
    exact ⟨rfl, rfl⟩
  · intro hd hk
    have hstep := animStepD_done_start
      { a with dir := -a.dir, next_ms := add32 now ANIM_FRAME_MS }
      ha hc (by simp [hd]) (add32_lt _ _) hk
    rw [hstep]
    exact ⟨rfl, rfl⟩
  · intro hd hk
    have hstep := animStepD_run_fwd
      { a with dir := -a.dir, next_ms := add32 now ANIM_FRAME_MS }
      ha hc (by simp [hd]) (add32_lt _ _) hk
    rw [hstep]
    exact ⟨rfl, rfl⟩
  · intro hd hk
    have hstep := animStepD_done_end
      { a with dir := -a.dir, next_ms := add32 now ANIM_FRAME_MS }
      ha hc (by simp [hd]) (add32_lt _ _) (by show a.count ≤ a.idx + 1; omega)
    rw [hstep]
    exact ⟨rfl, rfl⟩

/-- C3 witness: reversing a forward animator at index 2 of a 4-frame
sequence keeps index 2, and the next deadline step moves to index 1. -/
theorem animator_reverse_frame_preserving_witness :
    (animator_reverse { count := 4, dir := 1, idx := 2, active := true, next_ms := 160 } 170).idx
      = 2 ∧
    (animStepD (animator_reverse
        { count := 4, dir := 1, idx := 2, active := true, next_ms := 160 } 170)).1.idx = 1 := by
  have h := animator_reverse_frame_preserving
    { count := 4, dir := 1, idx := 2, active := true, next_ms := 160 } 170
    rfl (by decide) (by decide)
  exact ⟨h.1, (h.2.2.2.1 rfl (by decide)).1⟩

-- ===========================================================================
-- C4: reversal and the tick schedule
-- ===========================================================================

/-- C4 counterexample: `animator_reverse` does not leave the next-tick
deadline unchanged — it reschedules it to `now + ANIM_FRAME_MS`.  For an
active animator with deadline 100, reversing at now = 50 moves the deadline
to 130. -/
theorem animator_reverse_deadline_changes :
    (animator_reverse
        { count := 4, dir := 1, idx := 1, active := true, next_ms := 100 } 50).next_ms
      = 130 ∧ (130 : Nat) ≠ 100 := by
  decide

/-- C4 (amended): for every active animator, `animator_reverse now` flips
the playback direction, keeps the frame index, and reschedules the
next-tick deadline to `now + ANIM_FRAME_MS` (it does not preserve the old
deadline). -/
theorem animator_reverse_reschedules (a : Animator) (now : Nat)
    (ha : a.active = true) (hc : a.count ≠ 0) :
    (animator_reverse a now).dir = -a.dir ∧
    (animator_reverse a now).idx = a.idx ∧
    (animator_reverse a now).next_ms = add32 now ANIM_FRAME_MS := by
  rw [animator_reverse_active a now ha hc]
  exact ⟨rfl, rfl, rfl⟩

/-- C4 witness: the amended statement at the counterexample's input. -/
theorem animator_reverse_reschedules_witness :
    (animator_reverse
        { count := 4, dir := 1, idx := 1, active := true, next_ms := 100 } 50).next_ms
      = add32 50 ANIM_FRAME_MS := by
  exact (animator_reverse_reschedules
    { count := 4, dir := 1, idx := 1, active := true, next_ms := 100 } 50
    rfl (by decide)).2.2

-- ===========================================================================
-- C6: toggle idempotence
-- ===========================================================================

/-- C6: from the idle-on phase, `toggle_anim_set true` keeps the phase
idle-on and leaves every animator field unchanged (so repeated calls are
idempotent and never start a new animation); while animating toward on
(entering phase), `toggle_anim_set true` changes neither the phase nor any
animator field. -/
theorem toggle_set_true_idempotent (w : ToggleAnim) (now now2 : Nat) :
    (w.phase = .idleOn →
      (toggle_anim_set w true now).phase = .idleOn ∧
      (toggle_anim_set w true now).anim = w.anim ∧
      toggle_anim_set (toggle_anim_set w true now) true now2 = toggle_anim_set w true now) ∧
    (w.phase = .entering →
      (toggle_anim_set w true now).phase = .entering ∧
      (toggle_anim_set w true now).anim = w.anim) := by
  have eOn : ∀ (v : ToggleAnim) (t : Nat), v.phase = .idleOn →
      toggle_anim_set v true t = { v with desired_on := true } := by
    intro v t h
    unfold toggle_anim_set
    simp only [h]
    simp
  have eEnter : ∀ (v : ToggleAnim) (t : Nat), v.phase = .entering →
      toggle_anim_set v true t = { v with desired_on := true } := by
    intro v t h
    unfold toggle_anim_set
    simp only [h]
    simp
  constructor
  · intro h
    rw [eOn w now h]
    refine ⟨h, rfl, ?_⟩
    rw [eOn { w with desired_on := true } now2 h]
  · intro h
    rw [eEnter w now h]
    exact ⟨h, rfl⟩

/-- C6 witness: a concrete idle-on toggle and a concrete entering toggle. -/
theorem toggle_set_true_idempotent_witness :
    (toggle_anim_set
      { seq := some seq4, anim := animator0, phase := .idleOn,
        visible_on := true, desired_on := true } true 0).phase = .idleOn ∧
    (toggle_anim_set
      { seq := some seq4,
        anim := { count := 4, dir := 1, idx := 1, active := true, next_ms := 160 },
        phase := .entering, visible_on := false, desired_on := true } true 200).anim
      = { count := 4, dir := 1, idx := 1, active := true, next_ms := 160 } := by
  refine ⟨((toggle_set_true_idempotent _ 0 0).1 rfl).1, ?_⟩
  exact ((toggle_set_true_idempotent _ 200 0).2 rfl).2

-- ===========================================================================
-- C7: one-shot trigger gating
-- ===========================================================================

/-- A concrete one-shot controller mid-way through a triggered animation. -/
def osTriggered : OneshotAnim :=
  { seq := some seq3, steady_at_end := true,
    anim := { count := 3, dir := 1, idx := 2, active := true, next_ms := 240 },
    phase := .triggered, boot_done := true }

/-- C7 counterexample: with the controller already in the triggered phase
(boot done), `oneshot_anim_trigger` is *not* a no-op — it restarts the
animation from frame 0 and reschedules the deadline, contradicting the
claim that the call changes nothing unless the controller is idle. -/
theorem oneshot_trigger_restarts_when_triggered :
    osTriggered.phase = .triggered ∧
    osTriggered.anim.idx = 2 ∧
    (oneshot_anim_trigger osTriggered 300).anim.idx = 0 ∧
    (oneshot_anim_trigger osTriggered 300).anim.next_ms = 380 := by
  decide

/-- C7 (amended): `oneshot_anim_trigger` gates on `boot_done` and sequence
validity, not on being idle: it is a no-op while boot has not completed
(in particular during the boot phase) or when the sequence is null or
empty; otherwise — whether the controller is idle or already triggered —
it starts a fresh forward play-through from frame 0 and enters the
triggered phase. -/
theorem oneshot_trigger_gating (w : OneshotAnim) (now : Nat) :
    (w.boot_done = false → oneshot_anim_trigger w now = w) ∧
    (w.seq = none → oneshot_anim_trigger w now = w) ∧
    (∀ s, w.seq = some s → s.count = 0 → oneshot_anim_trigger w now = w) ∧
    (∀ s, w.seq = some s → s.count ≠ 0 → w.boot_done = true →
      oneshot_anim_trigger w now =
        { w with
          anim := { count := s.count, dir := 1, idx := 0, active := true,
                    next_ms := add32 now ANIM_FRAME_MS },
          phase := .triggered }) := by
  refine ⟨?_, ?_, ?_, ?_⟩
  · intro h
    unfold oneshot_anim_trigger
    cases hs : w.seq with
    | none => rfl
    | some s => simp [h]
  · intro h
    unfold oneshot_anim_trigger
    rw [h]
  · intro s hs h0
    unfold oneshot_anim_trigger
    rw [hs]
    simp [h0]
  · intro s hs h0 hb
    simp only [oneshot_anim_trigger, hs]
    rw [if_neg (by simp [hb, h0])]
    rw [animator_start_fwd w.anim s now h0]

/-- C7 witness: the amended statement on the concrete triggered controller
and on an idle controller. -/
theorem oneshot_trigger_gating_witness :
    (oneshot_anim_trigger osTriggered 300 =
      { osTriggered with
        anim := { count := 3, dir := 1, idx := 0, active := true, next_ms := 380 },
        phase := .triggered }) ∧
    (oneshot_anim_trigger { osTriggered with boot_done := false } 300 =
      { osTriggered with boot_done := false }) := by
  constructor
  · have h := (oneshot_trigger_gating osTriggered 300).2.2.2 seq3 rfl (by decide) rfl
    rw [h]
    rfl
  · exact (oneshot_trigger_gating { osTriggered with boot_done := false } 300).1 rfl

-- ===========================================================================
-- C5: toggle cancellation symmetry
-- ===========================================================================

/-- Evaluating `toggle_anim_set true` from idle-off. -/
theorem toggle_set_true_idleOff (w : ToggleAnim) (t : Nat) (h : w.phase = .idleOff) :
    toggle_anim_set w true t =
      { w with desired_on := true, anim := animator_start w.anim w.seq true t,
               phase := .entering } := by
  unfold toggle_anim_set
  simp only [h]
  simp

/-- Evaluating `toggle_anim_set false` while entering. -/
theorem toggle_set_false_entering (w : ToggleAnim) (t : Nat) (h : w.phase = .entering) :
    toggle_anim_set w false t =
      { w with desired_on := false, anim := animator_reverse w.anim t,
               phase := .exiting } := by
  unfold toggle_anim_set
  simp only [h]
  simp

/-- One deadline render while entering, with room to keep running. -/
theorem togRenderD_entering_run (w : ToggleAnim) (h : w.phase = .entering)
    (ha : w.anim.active = true) (hc : w.anim.count ≠ 0) (hd : w.anim.dir = 1)
    (hn : w.anim.next_ms < MOD32) (hi : w.anim.idx + 1 < w.anim.count) :
    togRenderD w =
      { w with anim := { w.anim with
                 idx := w.anim.idx + 1,
                 next_ms := add32 w.anim.next_ms ANIM_FRAME_MS } } := by
  have hstep := animStepD_run_fwd w.anim ha hc hd hn hi
  unfold animStepD at hstep
  unfold togRenderD toggle_anim_render_blend
  simp only [h, hstep]
  simp

/-- One deadline render while exiting, with room to keep running. -/
theorem togRenderD_exiting_run (w : ToggleAnim) (h : w.phase = .exiting)
    (ha : w.anim.active = true) (hc : w.anim.count ≠ 0) (hd : w.anim.dir = -1)
    (hn : w.anim.next_ms < MOD32) (hi : 1 ≤ w.anim.idx) (hi2 : w.anim.idx < w.anim.count) :
    togRenderD w =
      { w with anim := { w.anim with
                 idx := w.anim.idx - 1,
                 next_ms := add32 w.anim.next_ms ANIM_FRAME_MS } } := by
  have hstep := animStepD_run_bwd w.anim ha hc hd hn hi hi2
  unfold animStepD at hstep
  unfold togRenderD toggle_anim_render_blend
  simp only [h, hstep]
  simp

/-- One deadline render while exiting at index 0: completes into idle-off. -/
theorem togRenderD_exiting_done (w : ToggleAnim) (h : w.phase = .exiting)
    (ha : w.anim.active = true) (hc : w.anim.count ≠ 0) (hd : w.anim.dir = -1)
    (hn : w.anim.next_ms < MOD32) (hi : w.anim.idx = 0) :
    togRenderD w =
      { w with anim := { w.anim with
                 idx := 0, active := false,
                 next_ms := add32 w.anim.next_ms ANIM_FRAME_MS },
               phase := .idleOff, visible_on := false } := by
  have hstep := animStepD_done_start w.anim ha hc hd hn hi
  unfold animStepD at hstep
  unfold togRenderD toggle_anim_render_blend
  simp only [h, hstep]
  simp

/-- Iterating deadline renders while entering, with room for `j` running
steps. -/
theorem togIter_entering_run (j : Nat) : ∀ (w : ToggleAnim), w.phase = .entering →
    w.anim.active = true → w.anim.count ≠ 0 → w.anim.dir = 1 →
    w.anim.next_ms < MOD32 → w.anim.idx + j < w.anim.count →
    ∃ ms, ms < MOD32 ∧
      togIter j w = { w with anim := { w.anim with idx := w.anim.idx + j, next_ms := ms } } := by
  induction j with
  | zero =>
    intro w h ha hc hd hn hi
    exact ⟨w.anim.next_ms, hn, rfl⟩
  | succ j ih =>
    intro w h ha hc hd hn hi
    have hrender := togRenderD_entering_run w h ha hc hd hn (by omega)
    obtain ⟨ms, hms, hiter⟩ := ih
      { w with anim := { w.anim with
                 idx := w.anim.idx + 1,
                 next_ms := add32 w.anim.next_ms ANIM_FRAME_MS } }
      h ha hc hd (add32_lt _ _) (by simp; omega)
    refine ⟨ms, hms, ?_⟩
    show togIter j (togRenderD w) = _
    rw [hrender]
    simpa [Nat.add_assoc, Nat.add_comm 1 j] using hiter

/-- From the exiting phase at index k, k+1 deadline renders complete the
exit into idle-off with the animator inactive at frame 0. -/
theorem togIter_exiting_done (k : Nat) : ∀ (w : ToggleAnim), w.phase = .exiting →
    w.anim.active = true → w.anim.count ≠ 0 → w.anim.dir = -1 →
    w.anim.next_ms < MOD32 → w.anim.idx = k → k < w.anim.count →
    (togIter (k + 1) w).phase = .idleOff ∧
    (togIter (k + 1) w).anim.idx = 0 ∧
    (togIter (k + 1) w).anim.active = false ∧
    (togIter (k + 1) w).visible_on = false := by
  induction k with
  | zero =>
    intro w h ha hc hd hn hi hk
    have hrender := togRenderD_exiting_done w h ha hc hd hn hi
    have e : togIter (0 + 1) w = togRenderD w := rfl
    rw [e, hrender]
    exact ⟨rfl, rfl, rfl, rfl⟩
  | succ k ih =>
    intro w h ha hc hd hn hi hk
    have hrender := togRenderD_exiting_run w h ha hc hd hn (by omega) (by omega)
    have hnext := ih
      { w with anim := { w.anim with
                 idx := w.anim.idx - 1,
                 next_ms := add32 w.anim.next_ms ANIM_FRAME_MS } }
      h ha hc hd (add32_lt _ _) (by simp; omega) (by simp; omega)
    have e : togIter (k + 1 + 1) w = togIter (k + 1) (togRenderD w) := rfl
    rw [e, hrender]
    exact hnext

/-- C5: a toggle idle-off with a non-empty sequence of n frames; request on
at t0, render j deadline-elapsed frames (any j ≤ n-1, so the transition has
not completed: the phase is still entering with the animator active), then
request off at t1.  j+1 further deadline-elapsed renders finish the
animation in the steady-off phase at exactly frame 0 with the animator
inactive. -/
theorem toggle_cancellation_symmetry (w : ToggleAnim) (s : SliceSeq) (n j t0 t1 : Nat)
    (hph : w.phase = .idleOff) (hseq : w.seq = some s) (hcount : s.count = n)
    (hn : 1 ≤ n) (hj : j ≤ n - 1) :
    (togIter j (toggle_anim_set w true t0)).phase = .entering ∧
    (togIter j (toggle_anim_set w true t0)).anim.active = true ∧
    (togIter (j + 1) (toggle_anim_set
        (togIter j (toggle_anim_set w true t0)) false t1)).phase = .idleOff ∧
    (togIter (j + 1) (toggle_anim_set
        (togIter j (toggle_anim_set w true t0)) false t1)).anim.idx = 0 ∧
    (togIter (j + 1) (toggle_anim_set
        (togIter j (toggle_anim_set w true t0)) false t1)).anim.active = false ∧
    (togIter (j + 1) (toggle_anim_set
        (togIter j (toggle_anim_set w true t0)) false t1)).visible_on = false := by
  have hc0 : s.count ≠ 0 := by omega
  -- the `set true` call starts a forward animation from frame 0
  have hset : toggle_anim_set w true t0 =
      { w with desired_on := true,
               anim := { count := s.count, dir := 1, idx := 0, active := true,
                         next_ms := add32 t0 ANIM_FRAME_MS },
               phase := .entering } := by
    rw [toggle_set_true_idleOff w t0 hph, hseq, animator_start_fwd w.anim s t0 hc0]
  -- j deadline renders keep it entering at index j
  obtain ⟨ms, hms, hiter⟩ := togIter_entering_run j
    { w with desired_on := true,
             anim := { count := s.count, dir := 1, idx := 0, active := true,
                       next_ms := add32 t0 ANIM_FRAME_MS },
             phase := .entering }
    rfl rfl hc0 rfl (add32_lt _ _) (by simp; omega)
  rw [hset, hiter]
  refine ⟨rfl, rfl, ?_⟩
  -- the `set false` call reverses mid-flight into the exiting phase
  have hrev : toggle_anim_set
      { w with desired_on := true,
               anim := { count := s.count, dir := 1, idx := 0 + j, next_ms := ms,
                         active := true },
               phase := .entering } false t1 =
      { w with desired_on := false,
               anim := { count := s.count, dir := -1, idx := 0 + j, active := true,
                         next_ms := add32 t1 ANIM_FRAME_MS },
               phase := .exiting } := by
    rw [toggle_set_false_entering _ t1 rfl]
    rw [animator_reverse_active _ t1 rfl hc0]
  rw [hrev]
  -- j+1 deadline renders finish the exit at frame 0, idle-off
  have hdone := togIter_exiting_done j
    { w with desired_on := false,
             anim := { count := s.count, dir := -1, idx := 0 + j, active := true,
                       next_ms := add32 t1 ANIM_FRAME_MS },
             phase := .exiting }
    rfl rfl hc0 rfl (add32_lt _ _) (by simp) (by simp; omega)
  exact ⟨hdone.1, hdone.2.1, hdone.2.2.1, hdone.2.2.2⟩

/-- C5 witness: a concrete idle-off toggle on the 4-frame sequence,
cancelled after 2 of its 3 running steps. -/
theorem toggle_cancellation_symmetry_witness :
    (togIter 3 (toggle_anim_set
        (togIter 2 (toggle_anim_set
          { seq := some seq4, anim := animator0, phase := .idleOff,
            visible_on := false, desired_on := false } true 0)) false 1000)).phase
      = .idleOff ∧
    (togIter 3 (toggle_anim_set
        (togIter 2 (toggle_anim_set
          { seq := some seq4, anim := animator0, phase := .idleOff,
            visible_on := false, desired_on := false } true 0)) false 1000)).anim.idx
      = 0 := by
  have h := toggle_cancellation_symmetry
    { seq := some seq4, anim := animator0, phase := .idleOff,
      visible_on := false, desired_on := false }
    seq4 4 2 0 1000 rfl rfl rfl (by norm_num) (by norm_num)
  exact ⟨h.2.2.1, h.2.2.2.1⟩

-- ===========================================================================
-- C2: queued-target convergence of the exclusive-state controller
-- ===========================================================================

/-- Requesting a new state from idle starts the exit leg toward it. -/
theorem layer_tr_request_idle_new (t : LayerTransition) (d now : Nat)
    (hinit : t.initialized = true) (hd : d < t.state_count) (hne : d ≠ t.src)
    (hph : t.phase = .idle) :
    layer_tr_request t d now = lt_start_exit { t with dst := d } now := by
  unfold layer_tr_request
  rw [if_neg (by simp [hinit]; omega), if_neg (by simp [hne])]
  simp only [hph]
  rw [if_pos hne]

/-- Requesting a third state mid-exit only retargets `dst`; the running
exit animator is untouched. -/
theorem layer_tr_request_exit_retarget (t : LayerTransition) (d now : Nat)
    (hinit : t.initialized = true) (hd : d < t.state_count)
    (hph : t.phase = .exit) (hne_src : d ≠ t.src) (hne_dst : d ≠ t.dst) :
    layer_tr_request t d now = { t with dst := d } := by
  unfold layer_tr_request
  rw [if_neg (by simp [hinit]; omega), if_neg (by simp [hph])]
  simp only [hph]
  rw [if_neg hne_src, if_pos hne_dst]

/-- One deadline render during the exit leg, with room to keep running. -/
theorem ltRenderD_exit_run (t : LayerTransition) (h : t.phase = .exit)
    (ha : t.anim.active = true) (hc : t.anim.count ≠ 0) (hd : t.anim.dir = -1)
    (hn : t.anim.next_ms < MOD32) (hi : 1 ≤ t.anim.idx) (hi2 : t.anim.idx < t.anim.count) :
    ltRenderD t =
      { t with anim := { t.anim with
                 idx := t.anim.idx - 1,
                 next_ms := add32 t.anim.next_ms ANIM_FRAME_MS } } := by
  have hstep := animStepD_run_bwd t.anim ha hc hd hn hi hi2
  unfold animStepD at hstep
  unfold ltRenderD layer_tr_render
  simp only [h, hstep]

/-- The deadline render that completes the exit leg at index 0: the
controller adopts `dst` as the new `src` and immediately starts the enter
leg on `dst`'s sequence. -/
theorem ltRenderD_exit_doneStart (t : LayerTransition) (s : SliceSeq) (h : t.phase = .exit)
    (ha : t.anim.active = true) (hc : t.anim.count ≠ 0) (hd : t.anim.dir = -1)
    (hn : t.anim.next_ms < MOD32) (hi : t.anim.idx = 0)
    (hm : t.seq_map t.dst = some s) (hs : s.count ≠ 0) :
    ltRenderD t =
      { t with src := t.dst, phase := .enter,
               anim := { count := s.count, dir := 1, idx := 0, active := true,
                         next_ms := add32 t.anim.next_ms ANIM_FRAME_MS } } := by
  have hstep := animStepD_done_start t.anim ha hc hd hn hi
  unfold animStepD at hstep
  unfold ltRenderD layer_tr_render
  simp only [h, hstep]
  unfold lt_start_enter
  simp only [hm]
  rw [animator_start_fwd _ s _ hs]

/-- One deadline render during the enter leg, with room to keep running. -/
theorem ltRenderD_enter_run (t : LayerTransition) (h : t.phase = .enter)
    (ha : t.anim.active = true) (hc : t.anim.count ≠ 0) (hd : t.anim.dir = 1)
    (hn : t.anim.next_ms < MOD32) (hi : t.anim.idx + 1 < t.anim.count) :
    ltRenderD t =
      { t with anim := { t.anim with
                 idx := t.anim.idx + 1,
                 next_ms := add32 t.anim.next_ms ANIM_FRAME_MS } } := by
  have hstep := animStepD_run_fwd t.anim ha hc hd hn hi
  unfold animStepD at hstep
  unfold ltRenderD layer_tr_render
  simp only [h, hstep]

/-- The deadline render that completes the enter leg: the controller goes
idle on its committed state. -/
theorem ltRenderD_enter_doneEnd (t : LayerTransition) (h : t.phase = .enter)
    (ha : t.anim.active = true) (hc : t.anim.count ≠ 0) (hd : t.anim.dir = 1)
    (hn : t.anim.next_ms < MOD32) (hi : t.anim.count ≤ t.anim.idx + 1) :
    ltRenderD t =
      { t with phase := .idle,
               anim := { t.anim with
                 idx := t.anim.count - 1, active := false,
                 next_ms := add32 t.anim.next_ms ANIM_FRAME_MS } } := by
  have hstep := animStepD_done_end t.anim ha hc hd hn hi
  unfold animStepD at hstep
  unfold ltRenderD layer_tr_render
  simp only [h, hstep]

/-- Running `j` deadline renders during the exit leg while it stays
running. -/
theorem ltIter_exit_run (j : Nat) : ∀ (t : LayerTransition), t.phase = .exit →
    t.anim.active = true → t.anim.count ≠ 0 → t.anim.dir = -1 →
    t.anim.next_ms < MOD32 → j ≤ t.anim.idx → t.anim.idx < t.anim.count →
    ∃ ms, ms < MOD32 ∧
      ltIter j t = { t with anim := { t.anim with idx := t.anim.idx - j, next_ms := ms } } := by
  induction j with
  | zero =>
    intro t h ha hc hd hn hj hi
    exact ⟨t.anim.next_ms, hn, rfl⟩
  | succ j ih =>
    intro t h ha hc hd hn hj hi
    have hrender := ltRenderD_exit_run t h ha hc hd hn (by omega) hi
    obtain ⟨ms, hms, hiter⟩ := ih
      { t with anim := { t.anim with
                 idx := t.anim.idx - 1,
                 next_ms := add32 t.anim.next_ms ANIM_FRAME_MS } }
      h ha hc hd (add32_lt _ _) (by simp; omega) (by simp; omega)
    refine ⟨ms, hms, ?_⟩
    have e : ltIter (j + 1) t = ltIter j (ltRenderD t) := rfl
    rw [e, hrender]
    have e2 : t.anim.idx - 1 - j = t.anim.idx - (j + 1) := by omega
    simpa [e2] using hiter

/-- From the exit phase at index k, k+1 deadline renders complete the exit
and start the enter leg on the (current) destination's sequence. -/
theorem ltIter_exit_complete (k : Nat) : ∀ (t : LayerTransition) (s : SliceSeq),
    t.phase = .exit → t.anim.active = true → t.anim.count ≠ 0 → t.anim.dir = -1 →
    t.anim.next_ms < MOD32 → t.anim.idx = k → k < t.anim.count →
    t.seq_map t.dst = some s → s.count ≠ 0 →
    ∃ ms, ms < MOD32 ∧
      ltIter (k + 1) t =
        { t with src := t.dst, phase := .enter,
                 anim := { count := s.count, dir := 1, idx := 0, active := true,
                           next_ms := ms } } := by
  induction k with
  | zero =>
    intro t s h ha hc hd hn hi hk hm hs
    have hrender := ltRenderD_exit_doneStart t s h ha hc hd hn hi hm hs
    refine ⟨add32 t.anim.next_ms ANIM_FRAME_MS, add32_lt _ _, ?_⟩
    have e : ltIter (0 + 1) t = ltRenderD t := rfl
    rw [e, hrender]
  | succ k ih =>
    intro t s h ha hc hd hn hi hk hm hs
    have hrender := ltRenderD_exit_run t h ha hc hd hn (by omega) (by omega)
    obtain ⟨ms, hms, hiter⟩ := ih
      { t with anim := { t.anim with
                 idx := t.anim.idx - 1,
                 next_ms := add32 t.anim.next_ms ANIM_FRAME_MS } }
      s h ha hc hd (add32_lt _ _) (by simp; omega) (by simp; omega) hm hs
    refine ⟨ms, hms, ?_⟩
    have e : ltIter (k + 1 + 1) t = ltIter (k + 1) (ltRenderD t) := rfl
    rw [e, hrender]
    exact hiter

/-- From the enter phase with k+1 frames left to the end boundary, k+1
deadline renders complete the enter leg into idle, keeping `src`. -/
theorem ltIter_enter_done (k : Nat) : ∀ (t : LayerTransition), t.phase = .enter →
    t.anim.active = true → t.anim.count ≠ 0 → t.anim.dir = 1 →
    t.anim.next_ms < MOD32 → t.anim.idx + k + 1 = t.anim.count →
    (ltIter (k + 1) t).phase = .idle ∧
    (ltIter (k + 1) t).src = t.src ∧
    (ltIter (k + 1) t).anim.active = false := by
  induction k with
  | zero =>
    intro t h ha hc hd hn hi
    have hrender := ltRenderD_enter_doneEnd t h ha hc hd hn (by omega)
    have e : ltIter (0 + 1) t = ltRenderD t := rfl
    rw [e, hrender]
    exact ⟨rfl, rfl, rfl⟩
  | succ k ih =>
    intro t h ha hc hd hn hi
    have hrender := ltRenderD_enter_run t h ha hc hd hn (by omega)
    have hnext := ih
      { t with anim := { t.anim with
                 idx := t.anim.idx + 1,
                 next_ms := add32 t.anim.next_ms ANIM_FRAME_MS } }
      h ha hc hd (add32_lt _ _) (by simp; omega)
    have e : ltIter (k + 1 + 1) t = ltIter (k + 1) (ltRenderD t) := rfl
    rw [e, hrender]
    exact hnext

/-- Splitting an iteration of deadline renders. -/
theorem ltIter_add (a b : Nat) : ∀ (t : LayerTransition),
    ltIter (a + b) t = ltIter b (ltIter a t) := by
  induction a with
  | zero =>
    intro t
    rw [Nat.zero_add]
    rfl
  | succ a ih =>
    intro t
    have e : a + 1 + b = (a + b) + 1 := by omega
    rw [e]
    show ltIter (a + b) (ltRenderD t) = _
    rw [ih (ltRenderD t)]
    rfl

/-- C2: queued-target convergence.  From idle in state A (initialized), a
request for B starts the exit of A; after any j ≤ nA-1 deadline renders the
exit is still running, and a request for C (A, B, C pairwise distinct and
below `state_count`) leaves the running exit animator untouched while
retargeting `dst` to C.  The remaining nA-j exit renders plus nC enter
renders settle the controller idle with committed state C, not B. -/
theorem layer_queued_target_convergence (t : LayerTransition) (A B C : Nat)
    (sA sC : SliceSeq) (j u0 u1 : Nat)
    (hinit : t.initialized = true) (hph : t.phase = .idle) (hsrc : t.src = A)
    (hA : A < t.state_count) (hB : B < t.state_count) (hC : C < t.state_count)
    (hAB : A ≠ B) (hAC : A ≠ C) (hBC : B ≠ C)
    (hmA : t.seq_map A = some sA) (hmC : t.seq_map C = some sC)
    (hnA : 1 ≤ sA.count) (hnC : 1 ≤ sC.count) (hj : j ≤ sA.count - 1) :
    ((layer_tr_request (ltIter j (layer_tr_request t B u0)) C u1).anim
        = (ltIter j (layer_tr_request t B u0)).anim ∧
     (layer_tr_request (ltIter j (layer_tr_request t B u0)) C u1).dst = C) ∧
    ((ltIter (sA.count - j + sC.count)
        (layer_tr_request (ltIter j (layer_tr_request t B u0)) C u1)).phase = .idle ∧
     (ltIter (sA.count - j + sC.count)
        (layer_tr_request (ltIter j (layer_tr_request t B u0)) C u1)).src = C ∧
     (ltIter (sA.count - j + sC.count)
        (layer_tr_request (ltIter j (layer_tr_request t B u0)) C u1)).anim.active
        = false) := by
  have hcA : sA.count ≠ 0 := by omega
  have hcC : sC.count ≠ 0 := by omega
  -- request B from idle: exit of A starts, running A's sequence backward
  have hreq1 : layer_tr_request t B u0 =
      { t with dst := B, phase := .exit,
               anim := { count := sA.count, dir := -1, idx := sA.count - 1,
                         active := true, next_ms := add32 u0 ANIM_FRAME_MS } } := by
    rw [layer_tr_request_idle_new t B u0 hinit hB (by omega) hph]
    unfold lt_start_exit
    show { t with
             dst := B, phase := .exit,
             anim := animator_start t.anim (t.seq_map t.src) false u0 } = _
    rw [hsrc, hmA, animator_start_bwd _ sA u0 hcA]
  -- j renders leave the exit running at index nA-1-j
  obtain ⟨ms, hms, hiter1⟩ := ltIter_exit_run j
    { t with dst := B, phase := .exit,
             anim := { count := sA.count, dir := -1, idx := sA.count - 1,
                       active := true, next_ms := add32 u0 ANIM_FRAME_MS } }
    rfl rfl hcA rfl (add32_lt _ _) (by simp; omega) (by simp; omega)
  rw [hreq1, hiter1]
  -- request C mid-exit: dst retargets, animator untouched
  have hreq2 := layer_tr_request_exit_retarget
    { t with dst := B, phase := .exit,
             anim := { count := sA.count, dir := -1, idx := sA.count - 1 - j,
                       active := true, next_ms := ms } }
    C u1 hinit (by simpa using hC) rfl (by simpa [hsrc] using Ne.symm hAC)
    (by simpa using Ne.symm hBC)
  rw [hreq2]
  refine ⟨⟨rfl, rfl⟩, ?_⟩
  -- remaining nA-j renders complete the exit and start entering C
  obtain ⟨ms2, hms2, hiter2⟩ := ltIter_exit_complete (sA.count - 1 - j)
    { t with dst := C, phase := .exit,
             anim := { count := sA.count, dir := -1, idx := sA.count - 1 - j,
                       active := true, next_ms := ms } }
    sC rfl rfl hcA rfl hms rfl (by simp; omega) (by simpa using hmC) hcC
  have esplit : sA.count - j + sC.count = ((sA.count - 1 - j) + 1) + sC.count := by omega
  rw [esplit, ltIter_add ((sA.count - 1 - j) + 1) sC.count, hiter2]
  -- nC renders complete the enter leg into idle at C
  have henter := ltIter_enter_done (sC.count - 1)
    { t with src := C, dst := C, phase := .enter,
             anim := { count := sC.count, dir := 1, idx := 0, active := true,
                       next_ms := ms2 } }
    rfl rfl hcC rfl hms2 (by simp; omega)
  have efin : (sC.count - 1) + 1 = sC.count := by omega
  rw [efin] at henter
  exact ⟨henter.1, henter.2.1, henter.2.2⟩

/-- C2 witness: three states with the concrete 4-frame and 3-frame
sequences, retargeting after one exit render. -/
theorem layer_queued_target_convergence_witness :
    (ltIter 6
      (layer_tr_request
        (ltIter 1
          (layer_tr_request
            { seq_map := fun i => if i = 0 then some seq4 else some seq3,
              state_count := 3, anim := animator0, phase := .idle,
              src := 0, dst := 0, pending := 255, initialized := true }
            1 0))
        2 100)).phase = .idle ∧
    (ltIter 6
      (layer_tr_request
        (ltIter 1
          (layer_tr_request
            { seq_map := fun i => if i = 0 then some seq4 else some seq3,
              state_count := 3, anim := animator0, phase := .idle,
              src := 0, dst := 0, pending := 255, initialized := true }
            1 0))
        2 100)).src = 2 := by
  have h := layer_queued_target_convergence
    { seq_map := fun i => if i = 0 then some seq4 else some seq3,
      state_count := 3, anim := animator0, phase := .idle,
      src := 0, dst := 0, pending := 255, initialized := true }
    0 1 2 seq4 seq3 1 0 100
    rfl rfl rfl (by decide) (by decide) (by decide)
    (by decide) (by decide) (by decide)
    (by decide) (by decide) (by decide) (by decide) (by decide)
  exact ⟨h.2.1, h.2.2.1⟩

-- ===========================================================================
-- C9: watchdog forced recovery
-- ===========================================================================

/-- `animator_reverse` is a no-op on an inactive animator. -/
theorem animator_reverse_inactive (a : Animator) (now : Nat) (h : a.active = false) :
    animator_reverse a now = a := by
  unfold animator_reverse
  rw [h]
  simp

/-- `animator_step` is a no-op returning ANIM_RUNNING on an inactive
animator. -/
theorem animator_step_inactive (a : Animator) (now : Nat) (h : a.active = false) :
    animator_step a now = (a, .running) := by
  unfold animator_step
  rw [h]
  simp

/-- A tick on a stuck widget (non-idle phase, inactive animator, constant
in-range query result equal to the last polled one, no stuck mark yet) whose
non-idle time exceeds the watchdog timeout: the phase and animator stay put,
the watchdog records the stuck timestamp, and at most the transition targets
(`dst`, `pending`) move. -/
theorem widget_tick_stuck_detect (w : Widget) (d t1 : Nat)
    (hinit : w.initialized = true) (hph : w.phase ≠ .idle) (hact : w.anim.active = false)
    (hst : w.stuck_timeout = 0) (hq : w.cfg.query = some (fun _ _ => d))
    (hd : d < w.cfg.state_count) (hlqr : w.last_query_result = d)
    (hn1 : t1 < MOD32)
    (htime : WIDGET_WATCHDOG_TIMEOUT_MS < sub32 t1 w.last_state_change) :
    ∃ d' p', widget_tick w t1 = { w with stuck_timeout := t1, dst := d', pending := p' } := by
  unfold widget_tick
  rw [hinit]
  rw [if_neg (by simp)]
  simp only [hq]
  rw [if_neg (show ¬ (w.cfg.state_count ≤ d) by omega)]
  rw [if_neg (show ¬ (d ≠ w.last_query_result) from by simp [hlqr])]
  rw [if_pos (show w.phase ≠ .idle ∧ w.stuck_timeout = 0 ∧
      WIDGET_WATCHDOG_TIMEOUT_MS < sub32 t1 w.last_state_change from ⟨hph, hst, htime⟩)]
  rw [if_neg (show ¬ (({ w with stuck_timeout := t1 } : Widget).stuck_timeout ≠ 0 ∧
      WIDGET_WATCHDOG_GRACE_MS <
        sub32 t1 ({ w with stuck_timeout := t1 } : Widget).stuck_timeout) from by
    simp [sub32_self hn1])]
  cases hp : w.phase with
  | idle => exact absurd hp hph
  | exit =>
    simp only [hp]
    by_cases h1 : d = w.src ∧ w.dst ≠ w.src
    · rw [if_pos h1]
      rw [animator_reverse_inactive _ _ hact]
      rw [animator_step_inactive _ _ hact]
      exact ⟨w.src, w.pending, by simp [hinit]⟩
    · rw [if_neg h1]
      by_cases h2 : d ≠ w.dst
      · rw [if_pos h2]
        rw [animator_step_inactive _ _ hact]
        exact ⟨d, w.pending, by simp [hinit]⟩
      · rw [if_neg h2]
        rw [animator_step_inactive _ _ hact]
        exact ⟨w.dst, w.pending, by simp [hinit]⟩
  | enter =>
    simp only [hp]
    by_cases h1 : d ≠ w.src
    · rw [if_pos h1]
      rw [animator_reverse_inactive _ _ hact]
      rw [animator_step_inactive _ _ hact]
      exact ⟨w.dst, d, by simp [hinit]⟩
    · rw [if_neg h1]
      rw [animator_step_inactive _ _ hact]
      exact ⟨w.dst, w.pending, by simp [hinit]⟩

/-- A tick on a widget whose stuck mark is set, once more than the grace
period past the mark (with the polled state unchanged and in range):
force-reset to idle at the polled desired state. -/
theorem widget_tick_force_reset (v : Widget) (d t2 : Nat)
    (hinit : v.initialized = true) (hq : v.cfg.query = some (fun _ _ => d))
    (hd : d < v.cfg.state_count) (hlqr : v.last_query_result = d)
    (hsn : v.stuck_timeout ≠ 0)
    (hg : WIDGET_WATCHDOG_GRACE_MS < sub32 t2 v.stuck_timeout) :
    widget_tick v t2 =
      { v with phase := .idle, src := d, dst := d, pending := 255,
               anim := { v.anim with active := false }, stuck_timeout := 0 } := by
  unfold widget_tick
  rw [hinit]
  rw [if_neg (by simp)]
  simp only [hq]
  rw [if_neg (show ¬ (v.cfg.state_count ≤ d) by omega)]
  rw [if_neg (show ¬ (d ≠ v.last_query_result) from by simp [hlqr])]
  rw [if_neg (show ¬ (v.phase ≠ .idle ∧ v.stuck_timeout = 0 ∧
      WIDGET_WATCHDOG_TIMEOUT_MS < sub32 t2 v.last_state_change) from by simp [hsn])]
  rw [if_pos (show v.stuck_timeout ≠ 0 ∧
      WIDGET_WATCHDOG_GRACE_MS < sub32 t2 v.stuck_timeout from ⟨hsn, hg⟩)]
  simp [hinit]

/-- C9: watchdog forced recovery.  An initialized widget stuck in a
non-idle phase with an animator that never reaches a boundary (inactive, so
every step reports running), polling a constant in-range desired state d
(unchanged since `last_state_change`): a tick at t1 more than
`WIDGET_WATCHDOG_TIMEOUT_MS` after the last state change marks the stuck
condition, and a tick at t2 more than `WIDGET_WATCHDOG_GRACE_MS` later
force-resets the widget to the idle phase with committed state d, target d,
pending cleared, animator inactive, and the stuck mark cleared. -/
theorem widget_watchdog_forced_recovery (w : Widget) (d t1 t2 : Nat)
    (hinit : w.initialized = true) (hph : w.phase ≠ .idle) (hact : w.anim.active = false)
    (hst : w.stuck_timeout = 0) (hq : w.cfg.query = some (fun _ _ => d))
    (hd : d < w.cfg.state_count) (hlqr : w.last_query_result = d)
    (h01 : t1 ≠ 0) (hn1 : t1 < MOD32)
    (htime1 : WIDGET_WATCHDOG_TIMEOUT_MS < sub32 t1 w.last_state_change)
    (htime2 : WIDGET_WATCHDOG_GRACE_MS < sub32 t2 t1) :
    (widget_tick (widget_tick w t1) t2).phase = .idle ∧
    (widget_tick (widget_tick w t1) t2).src = d ∧
    (widget_tick (widget_tick w t1) t2).dst = d ∧
    (widget_tick (widget_tick w t1) t2).pending = 255 ∧
    (widget_tick (widget_tick w t1) t2).anim.active = false ∧
    (widget_tick (widget_tick w t1) t2).stuck_timeout = 0 := by
  obtain ⟨d', p', h1⟩ := widget_tick_stuck_detect w d t1
    hinit hph hact hst hq hd hlqr hn1 htime1
  have h2 := widget_tick_force_reset (widget_tick w t1) d t2
    (by rw [h1]; exact hinit) (by rw [h1]; exact hq) (by rw [h1]; exact hd)
    (by rw [h1]; exact hlqr) (by rw [h1]; exact h01) (by rw [h1]; exact htime2)
  rw [h2]
  exact ⟨rfl, rfl, rfl, rfl, rfl, rfl⟩

/-- A concrete stuck widget configuration for the C9 witness: two states,
constant query answering 1, exit phase with an inactive animator. -/
def stuckWidget : Widget :=
  { cfg := { states := fun _ => { seq := some seq4, enter_dir := 1 },
             state_count := 2, query := some (fun _ _ => 1), legacy_query := none },
    anim := animator0, phase := .exit, src := 0, dst := 1, pending := 255,
    last_query_result := 1, last_state_change := 0, stuck_timeout := 0,
    initialized := true }

/-- C9 witness: the stuck widget ticked at t=1200 (past the 1000 ms
timeout) and t=1800 (past the further 500 ms grace) ends idle at state 1. -/
theorem widget_watchdog_forced_recovery_witness :
    (widget_tick (widget_tick stuckWidget 1200) 1800).phase = .idle ∧
    (widget_tick (widget_tick stuckWidget 1200) 1800).src = 1 ∧
    (widget_tick (widget_tick stuckWidget 1200) 1800).anim.active = false := by
  have h := widget_watchdog_forced_recovery stuckWidget 1 1200 1800
    rfl (by decide) rfl rfl rfl (by decide) rfl (by decide) (by decide)
    (by decide) (by decide)
  exact ⟨h.1, h.2.1, h.2.2.2.2.1⟩

-- ===========================================================================
-- C10: unified oneshot boot leaves boot_done false forever
-- ===========================================================================

/-- For a non-layer-transition behavior, `get_current_sequence` is the
configured sequence. -/
theorem get_current_sequence_oneshot (cfg : UnifiedConfig) (s : SliceSeq) (w : UnifiedAnim)
    (hb : cfg.behavior = .oneshot) (hs : cfg.seq = some s) (hcfg : w.cfg = cfg) :
    get_current_sequence w = some s := by
  unfold get_current_sequence
  rw [hcfg]
  cases hm : cfg.seq_map with
  | none => exact hs
  | some m =>
    show (if cfg.behavior ≠ AnimBehavior.layerTransition then cfg.seq
      else if w.current_state < cfg.state_count then m w.current_state else none) = some s
    rw [if_pos (show cfg.behavior ≠ .layerTransition from by simp [hb])]
    exact hs

/-- With boot not done, a unified oneshot trigger only records the trigger
timestamp. -/
theorem unified_oneshot_trigger_noop (cfg : UnifiedConfig) (s : SliceSeq)
    (hb : cfg.behavior = .oneshot) (hs : cfg.seq = some s) (hc : s.count ≠ 0)
    (w : UnifiedAnim) (hcfg : w.cfg = cfg) (hbd : w.boot_done = false)
    (x now : Nat) :
    unified_anim_trigger w x now = { w with last_trigger := now } := by
  unfold unified_anim_trigger
  rw [get_current_sequence_oneshot cfg s w hb hs hcfg]
  simp only [hc, hcfg, hb, hbd]
  simp

/-- Invariant of the unified oneshot controller booted with a non-empty
sequence: the configuration is fixed, `boot_done` stays false, and the
phase is always idle or boot. -/
theorem unified_oneshot_inv (cfg : UnifiedConfig) (s : SliceSeq)
    (hb : cfg.behavior = .oneshot) (hr : cfg.run_boot_anim = true)
    (hs : cfg.seq = some s) (hc : s.count ≠ 0) :
    ∀ w, UnifiedReach cfg w →
      w.cfg = cfg ∧ w.boot_done = false ∧ (w.phase = .idle ∨ w.phase = .boot) := by
  intro w hw
  induction hw with
  | init w0 st now =>
    unfold unified_anim_init
    rw [if_pos (show cfg.run_boot_anim = true from hr)]
    rw [get_current_sequence_oneshot cfg s _ hb hs rfl]
    simp only [hc]
    rw [if_pos (show s.count ≠ 0 from hc)]
    exact ⟨rfl, rfl, Or.inr rfl⟩
  | @render v now hw ih =>
    obtain ⟨hcfg, hbd, hph⟩ := ih
    have hren : unified_anim_render v now = handle_oneshot_behavior v now := by
      unfold unified_anim_render
      rw [hcfg, hb]
    rw [hren]
    unfold handle_oneshot_behavior
    rcases hph with h | h
    · simp only [h]
      exact ⟨hcfg, hbd, Or.inl trivial⟩
    · simp only [h]
      by_cases hdone : (animator_step v.anim now).2 = .doneAtEnd
      · rw [if_pos hdone]
        refine ⟨hcfg, ?_, Or.inl rfl⟩
        simpa using hbd
      · rw [if_neg hdone]
        exact ⟨hcfg, hbd, Or.inr rfl⟩
  | @trigger v x now hw ih =>
    obtain ⟨hcfg, hbd, hph⟩ := ih
    rw [unified_oneshot_trigger_noop cfg s hb hs hc v hcfg hbd x now]
    exact ⟨hcfg, hbd, by simpa using hph⟩

/-- C10: a unified controller with behavior ANIM_ONESHOT initialized with
`run_boot_anim = true` and a non-empty sequence: in every reachable state
(any interleaving of renders and triggers after init), `boot_done` is still
false — completing the boot animation goes idle without ever setting it,
because the handler tests `phase == PHASE_BOOT` after already assigning
`PHASE_IDLE` — the phase is never PHASE_FORWARD, and every
`unified_anim_trigger` call only records its timestamp, so no triggered
animation can ever start. -/
theorem unified_oneshot_boot_trigger_dead (cfg : UnifiedConfig) (s : SliceSeq)
    (hb : cfg.behavior = .oneshot) (hr : cfg.run_boot_anim = true)
    (hs : cfg.seq = some s) (hc : s.count ≠ 0)
    (w : UnifiedAnim) (hw : UnifiedReach cfg w) :
    w.boot_done = false ∧ w.phase ≠ .forward ∧
    (∀ x now, unified_anim_trigger w x now = { w with last_trigger := now }) := by
  obtain ⟨hcfg, hbd, hph⟩ := unified_oneshot_inv cfg s hb hr hs hc w hw
  refine ⟨hbd, ?_, fun x now => unified_oneshot_trigger_noop cfg s hb hs hc w hcfg hbd x now⟩
  rcases hph with h | h <;> simp [h]

/-- A concrete unified oneshot configuration with a boot animation. -/
def unifiedOneshotCfg : UnifiedConfig :=
  { seq := some seq3, behavior := .oneshot, steady_last := true,
    run_boot_anim := true, seq_map := none, state_count := 0 }

/-- A unified controller value to initialize from. -/
def unifiedZero : UnifiedAnim :=
  { cfg := unifiedOneshotCfg, anim := animator0, phase := .idle,
    current_state := 0, target_state := 0, pending_state := 255,
    boot_done := false, visible_on := false, desired_on := false,
    last_trigger := 0 }

/-- C10 witness: right after init, boot_done is false and a trigger only
records its timestamp. -/
theorem unified_oneshot_boot_trigger_dead_witness :
    (unified_anim_init unifiedZero unifiedOneshotCfg 0 0).boot_done = false ∧
    unified_anim_trigger (unified_anim_init unifiedZero unifiedOneshotCfg 0 0) 1 999
      = { unified_anim_init unifiedZero unifiedOneshotCfg 0 0 with last_trigger := 999 } := by
  have h := unified_oneshot_boot_trigger_dead unifiedOneshotCfg seq3
    rfl rfl rfl (by decide)
    (unified_anim_init unifiedZero unifiedOneshotCfg 0 0)
    (UnifiedReach.init unifiedZero 0 0)
  exact ⟨h.1, h.2.2 1 999⟩

-- ===========================================================================
-- C8: null/empty-sequence degradation
-- ===========================================================================

/-- An empty sequence value. -/
def emptySeq : SliceSeq := { frames := [], count := 0 }

/-- A toggle value to initialize from in the C8 counterexample. -/
def togZero : ToggleAnim :=
  { seq := some seq4, anim := animator0, phase := .idleOff,
    visible_on := false, desired_on := false }

/-- C8 counterexample: `toggle_anim_init` does *not* degrade safely on a
null or empty sequence — its unconditional steady-frame draw dereferences
the null sequence pointer (and, for a zero-count sequence, indexes the
frame array out of bounds), contradicting the claim that every entry point
checks and degrades to idle without reading through the null pointer. -/
theorem toggle_init_null_seq_unsafe :
    toggle_draw_steady_read (toggle_anim_init togZero none false) false = .unsafeRead ∧
    toggle_draw_steady_read (toggle_anim_init togZero (some emptySeq) true) true
      = .unsafeRead := by
  decide

/-- C8 (amended): `animator_start` and the one-shot controller's init and
trigger detect a null or zero-count sequence and degrade to inactive/idle
without any frame-array read (the one-shot steady draw's guard skips); but
`toggle_anim_init` performs no such check: it still records the idle phase,
yet its steady-frame draw reads through the null pointer, and on an empty
sequence it indexes outside the frame array. -/
theorem null_empty_sequence_degradation (a : Animator) (f : Bool) (t : Nat)
    (s0 : SliceSeq) (h0 : s0.count = 0)
    (w : OneshotAnim) (se r : Bool) (wt : ToggleAnim) (i : Bool) :
    (animator_start a none f t).active = false ∧
    (animator_start a (some s0) f t).active = false ∧
    ((oneshot_anim_init w none se r t).phase = .idle ∧
     (oneshot_anim_init w none se r t).boot_done = true ∧
     oneshot_draw_steady_read (oneshot_anim_init w none se r t) = .skipped) ∧
    ((oneshot_anim_init w (some s0) se r t).phase = .idle ∧
     oneshot_draw_steady_read (oneshot_anim_init w (some s0) se r t) = .skipped) ∧
    oneshot_anim_trigger { w with seq := none } t = { w with seq := none } ∧
    ((toggle_anim_init wt none i).phase = (if i then TogPhase.idleOn else .idleOff) ∧
     toggle_draw_steady_read (toggle_anim_init wt none i) i = .unsafeRead) ∧
    (s0.frames = [] →
      toggle_draw_steady_read (toggle_anim_init wt (some s0) i) i = .unsafeRead) := by
  refine ⟨rfl, ?_, ⟨rfl, rfl, rfl⟩, ⟨?_, ?_⟩, rfl, ⟨rfl, rfl⟩, ?_⟩
  · simp [animator_start, h0]
  · simp [oneshot_anim_init, h0]
  · simp [oneshot_anim_init, oneshot_draw_steady_read, h0]
  · intro hf
    cases i <;> simp [toggle_anim_init, toggle_draw_steady_read, frameRead, hf, h0]

/-- C8 witness: the amended statement on the empty sequence, an inert
one-shot controller, and the concrete toggle. -/
theorem null_empty_sequence_degradation_witness :
    (animator_start animator0 none true 0).active = false ∧
    (animator_start animator0 (some emptySeq) true 0).active = false ∧
    (oneshot_anim_init osTriggered none true true 0).phase = .idle ∧
    toggle_draw_steady_read (toggle_anim_init togZero (some emptySeq) false) false
      = .unsafeRead := by
  have h := null_empty_sequence_degradation animator0 true 0 emptySeq rfl
    osTriggered true true togZero false
  exact ⟨h.1, h.2.1, h.2.2.1.1, h.2.2.2.2.2.2 rfl⟩

end OledAnim
